import Mathlib

/-!
Shallow embedding of `ego.py` (a small App Engine front-end that proxies the
FriendFeed profile API and serves search-engine configuration XML), together
with theorems settling the frozen claims about it.

Conventions of the embedding:
* Python strings are Lean `String`s; helper functions mirror the exact Python
  string operations used by the source (`startswith`, `endswith`, `in`,
  `islower`, `lower`, slicing).
* JSON values parsed by `simplejson` are modelled by `PyJson`; Python
  truthiness of such a value is `pyTruthy`.
* External effects (urlfetch, memcache, simplejson) are passed in as explicit
  function or state parameters; functions additionally return counters for the
  effectful calls they made, so that claims about "no network call" or "no
  cache write" are statable.
* Python exceptions raised by the profile service are `FFError` values carried
  in `Except`.
-/

namespace Ego

/-- A parsed JSON value, as produced by simplejson (floats are not needed by
any claim, so numbers are integers). -/
inductive PyJson where
  | null
  | bool (b : Bool)
  | num (n : Int)
  | str (s : String)
  | arr (elems : List PyJson)
  | obj (entries : List (String × PyJson))
deriving Repr

/-- Python truthiness of a parsed JSON value: `None`, `False`, `0`, `""`,
`[]` and `{}` are falsy. -/
def pyTruthy : PyJson → Bool
  | .null => false
  | .bool b => b
  | .num n => n != 0
  | .str s => s != ""
  | .arr elems => !elems.isEmpty
  | .obj entries => !entries.isEmpty

/-- The result of `urlfetch.fetch`: a status code and a body. -/
structure UrlResult where
  status_code : Nat
  content : String
deriving Repr, DecidableEq

/-- Exceptions that can escape the profile service.  `userError` and
`serverError` embed the source's `UserError` and `ServerError` classes with
their message; `typeError` and `valueError` embed the built-in Python
exceptions raised by a bad `%`-format and by `simplejson.loads` on malformed
input. -/
inductive FFError where
  | userError (msg : String)
  | serverError (msg : String)
  | typeError
  | valueError
deriving Repr, DecidableEq

/-- An error is user-facing precisely when it is a `UserError`. -/
def FFError.isUserFacing : FFError → Bool
  | .userError _ => true
  | _ => false

/-! ### Python string operations -/

/-- Python `s.startswith(p)`. -/
def pyStartsWith (s p : String) : Bool := p.data.isPrefixOf s.data

/-- Python `s.endswith(p)`. -/
def pyEndsWith (s p : String) : Bool := p.data.isSuffixOf s.data

/-- Python `c in s` for a single character. -/
def pyContainsChar (s : String) (c : Char) : Bool := s.data.contains c

/-- Python `s[n:]`. -/
def pyDropPre (s : String) (n : Nat) : String := ⟨s.data.drop n⟩

/-- Python `s[0:-1]`. -/
def pyDropLast (s : String) : String := ⟨s.data.dropLast⟩

/-- Python `s.islower()`: at least one cased character and no upper-case
character (ASCII, as for Python 2 `str`). -/
def pyIsLower (s : String) : Bool :=
  s.data.all (fun c => !c.isUpper) && s.data.any (fun c => c.isLower)

/-- Python `s.lower()` (ASCII). -/
def pyLower (s : String) : String := ⟨s.data.map Char.toLower⟩

/-! ### `xml.sax.saxutils.escape` and the allow-list pattern -/

/-- One character of `xml.sax.saxutils.escape`: `&`, `<` and `>` become
entities, everything else is kept. -/
def escapeChar (c : Char) : List Char :=
  if c = '&' then ['&', 'a', 'm', 'p', ';']
  else if c = '<' then ['&', 'l', 't', ';']
  else if c = '>' then ['&', 'g', 't', ';']
  else [c]

/-- `xml.sax.saxutils.escape`: the three sequential `replace` calls of the
library function are equivalent to this character-wise map because no
replacement string contains `<` or `>` and `&` is replaced first. -/
def escape (s : String) : String := ⟨(s.data.map escapeChar).flatten⟩

/-- A regex `\w` character (Python 2 without `re.UNICODE`): `[a-zA-Z0-9_]`. -/
def isWordChar (c : Char) : Bool := c.isAlphanum || c = '_'

/-- A character of the class `[\w\-]`. -/
def isWordOrHyphen (c : Char) : Bool := isWordChar c || c = '-'

/-- Backtracking matcher for `p+` followed by the continuation `k`: consumes
one or more characters satisfying `p` and tries `k` after each of them. -/
def matchPlusThen (p : Char → Bool) (k : List Char → Bool) : List Char → Bool
  | [] => false
  | c :: cs => p c && (k cs || matchPlusThen p k cs)

/-- The tail `\.[a-zA-Z0-9][\w\-]+` of the allow-list regex (nothing follows
the final `+`, so one matching character suffices). -/
def matchDotTail : List Char → Bool
  | '.' :: c :: cs =>
    c.isAlphanum &&
      (match cs with
       | [] => false
       | c2 :: _ => isWordOrHyphen c2)
  | _ => false

/-- `re.match` of `VALID_CSE_RE = r'^[a-zA-Z0-9][\w\-]+\.[a-zA-Z0-9][\w\-]+'`
(anchored at the start only). -/
def VALID_CSE_RE_match (s : String) : Bool :=
  match s.data with
  | [] => false
  | c :: cs => c.isAlphanum && matchPlusThen isWordOrHyphen matchDotTail cs

/-! ### CSE pattern generation -/

/-- The transformation `profile_url_to_cse_patterns` applies to its argument
before testing the allow-list pattern: HTML-escape, then strip one leading
`http://`. -/
def cseTransform (profile_url : String) : String :=
  let u := escape profile_url
  if pyStartsWith u "http://" then pyDropPre u 7 else u

/-- `profile_url_to_cse_patterns` from `ego.py`. -/
def profile_url_to_cse_patterns (profile_url : String) : List String :=
  if profile_url = "" then []
  else
    let u := cseTransform profile_url
    if !VALID_CSE_RE_match u then []
    else if pyEndsWith u "/" then [u, u ++ "*"]
    else if pyContainsChar u '?' then [u]
    else [u, u ++ "/*"]

/-! ### The `cacheable` decorator

`cacheable(keygen, expiration)` wraps an operation `f`; each call of the
decorated operation runs the inner closure `call(f, *args, **kwargs)`.  The
memcache backend is modelled as an association list from global keys to
values; `memcache.get` is `List.lookup`, and `memcache.add` stores only when
the key is absent (returning the cache unchanged otherwise, which the source
merely logs).  Python truthiness of the cached value type is a parameter.
The result records the value returned together with the resulting cache and
counters for the calls made to `f`, `memcache.get` and `memcache.add`. -/

/-- `memcache.add(key, value, expiration)`: store only if the key is absent. -/
def memcache_add {α : Type} (cache : List (String × α)) (k : String) (v : α) :
    List (String × α) :=
  if (cache.lookup k).isSome then cache else (k, v) :: cache

/-- What one invocation of the decorated operation produced: the value
returned, the cache afterwards, and how many calls were made to the wrapped
`f`, to `memcache.get` and to `memcache.add`. -/
structure CacheCallResult (α : Type) where
  result : α
  cache : List (String × α)
  fcalls : Nat
  gets : Nat
  adds : Nat
deriving Repr, DecidableEq

/-- The inner closure `call(f, *args, **kwargs)` of `cacheable` in `ego.py`:
skip the cache when `expiration` is zero; otherwise derive the local key with
`keygen`, build the global key `module:name:local_key`, return a truthy
cached value on hit, and on miss invoke `f` and `memcache.add` the result if
it is truthy. -/
def cacheable_call {β α : Type} (expiration : Nat) (truthy : α → Bool)
    (module fname : String) (keygen : β → String) (f : β → α) (args : β)
    (cache : List (String × α)) : CacheCallResult α :=
  if expiration = 0 then ⟨f args, cache, 1, 0, 0⟩
  else
    let local_key := keygen args
    let global_key := module ++ ":" ++ fname ++ ":" ++ local_key
    match cache.lookup global_key with
    | some v =>
      if truthy v then ⟨v, cache, 0, 1, 0⟩
      else
        let r := f args
        if truthy r then ⟨r, memcache_add cache global_key r, 1, 1, 1⟩
        else ⟨r, cache, 1, 1, 0⟩
    | none =>
      let r := f args
      if truthy r then ⟨r, memcache_add cache global_key r, 1, 1, 1⟩
      else ⟨r, cache, 1, 1, 0⟩

/-! ### Profile service -/

/-- The upstream profile URL built by `get_friendfeed_profile`. -/
def friendfeed_profile_url (nickname : String) : String :=
  "http://friendfeed.com/api/user/" ++ nickname ++
    "/profile?include=name,nickname,services"

/-- `get_friendfeed_profile` from `ego.py`, with the (cached) URL fetcher and
`simplejson.loads` passed in explicitly; `parse` returns `none` where `loads`
would raise.  The second component counts the calls made to `get_url`. -/
def get_friendfeed_profile (nickname : String) (fetch : String → UrlResult)
    (parse : String → Option PyJson) : Except FFError PyJson × Nat :=
  if nickname = "" then (.error (.userError "nickname required"), 0)
  else
    let result := fetch (friendfeed_profile_url nickname)
    if result.status_code = 404 then
      (.error (.userError ("User " ++ nickname ++ " not found")), 1)
    else if result.status_code = 401 then
      (.error (.userError ("User " ++ nickname ++ " is private")), 1)
    else if result.status_code ≠ 200 then
      -- The source runs `raise ServerError('Unknown friendfeed code' %
      -- result.status_code)`; the format string has no conversion specifier,
      -- so the `%`-formatting raises TypeError before ServerError is built.
      (.error .typeError, 1)
    else if result.content = "" then
      (.error (.serverError ("could not load friendfeed user " ++ nickname)), 1)
    else
      match parse result.content with
      | none => (.error .valueError, 1)
      | some j =>
        if pyTruthy j then (.ok j, 1)
        else
          (.error (.serverError ("could not parse friendfeed user " ++ nickname)), 1)

/-- `get_friendfeed_name` from `ego.py`: the two nested `try/except KeyError`
blocks are key lookups in the profile mapping with fallbacks. -/
def get_friendfeed_name (friendfeed_profile : List (String × PyJson))
    (friendfeed_name : String) : PyJson :=
  match friendfeed_profile.lookup "name" with
  | some name => name
  | none =>
    match friendfeed_profile.lookup "nickname" with
    | some name => name
    | none => .str friendfeed_name

/-- `ANNOTATIONS_URL_TEMPLATE % nickname`. -/
def ANNOTATIONS_URL (nickname : String) : String :=
  "http://ego-ego.appspot.com/friendfeed/" ++ nickname ++ "/annotations/list/"

/-- `get_annotations` from `ego.py`.  On a non-200 status the source assigns
`annotation = ''` to a local variable but never returns it, so control falls
off the end of the function and Python returns `None` (here `none`); only the
200 branch returns the body. -/
def get_annotations (nickname : String) (fetch : String → UrlResult) :
    Option String :=
  let result := fetch (ANNOTATIONS_URL nickname)
  if result.status_code ≠ 200 then none
  else some result.content

/-! ### View handlers -/

/-- A view handler's response: a `webob.exc.HTTPMovedPermanently` redirect or
a rendered `TemplateResponse` (template name and template data). -/
inductive ViewResponse where
  | movedPermanently (location : String)
  | rendered (template_name : String) (data : List (String × PyJson))
deriving Repr

/-- The HTTP status of a view response (`HTTPMovedPermanently` is 301). -/
def ViewResponse.status : ViewResponse → Nat
  | .movedPermanently _ => 301
  | .rendered _ _ => 200

/-- `UserView` from `ego.py` (the body inside its `cacheable` wrapper): if
`request.path.islower()` is false, redirect to the lowercased path; otherwise
fetch the profile, look up the display name and render `user.tmpl`.  The
second component counts the calls made to `get_url`; exceptions propagate as
`Except.error`.  Indexing a truthy non-mapping profile with `['name']` raises
TypeError in Python, which the final case models. -/
def UserView (request_path nickname : String) (fetch : String → UrlResult)
    (parse : String → Option PyJson) : Except FFError ViewResponse × Nat :=
  if !pyIsLower request_path then
    (.ok (.movedPermanently (pyLower request_path)), 0)
  else
    match get_friendfeed_profile nickname fetch parse with
    | (.error e, n) => (.error e, n)
    | (.ok (.obj entries), n) =>
      let name := get_friendfeed_name entries nickname
      (.ok (.rendered "user.tmpl" [("nickname", .str nickname), ("name", name)]), n)
    | (.ok _, n) => (.error .typeError, n)

/-! ### Dispatcher -/

/-- HTTP methods used by the dispatcher. -/
inductive HttpMethod where
  | GET
  | POST
deriving Repr, DecidableEq

/-- A registered WSGI app: a `_make_request`-wrapped view (identified here by
a name) or the static `_redirect_with_slash` app. -/
inductive RouteHandler where
  | view (fname : String)
  | redirectWithSlash
deriving Repr, DecidableEq

/-- One binding of the underlying `wsgidispatcher.Dispatcher`. -/
structure Route where
  pattern : String
  method : HttpMethod
  handler : RouteHandler
deriving Repr, DecidableEq

/-- `Dispatcher._redirect_with_slash`: respond `301 Moved Permanently` with
`Location` set to `environ['SCRIPT_NAME'] + '/'`. -/
def redirect_with_slash (script_name : String) : Nat × String :=
  (301, script_name ++ "/")

/-- `Dispatcher.add_get_handler`: register the GET route, and when the
pattern ends in `/` also register `_redirect_with_slash` at the pattern
without the final character (`path[0:-1]`). -/
def add_get_handler (urls : List Route) (path : String) (f : String) :
    List Route :=
  let urls := urls ++ [⟨path, .GET, .view f⟩]
  if pyEndsWith path "/" then
    urls ++ [⟨pyDropLast path, .GET, .redirectWithSlash⟩]
  else urls

/-! ### Helper lemmas -/

/-- A character that is not upper-case is fixed by `Char.toLower`. -/
theorem toLower_of_not_upper (c : Char) (h : c.isUpper = false) :
    c.toLower = c := by
  unfold Char.toLower
  rw [if_neg]
  intro hc
  rw [Char.isUpper] at h
  simp only [Bool.and_eq_false_iff, decide_eq_false_iff_not] at h
  have h65 : (65 : Nat) ≤ c.toNat := hc.1
  have h90 : c.toNat ≤ 90 := hc.2
  have h3 : c.toNat = c.val.toBitVec.toNat := rfl
  have e65 : (65 : UInt32).toBitVec.toNat = 65 := rfl
  have e90 : (90 : UInt32).toBitVec.toNat = 90 := rfl
  rcases h with h | h
  · apply h
    show (65 : UInt32) ≤ c.val
    rw [UInt32.le_def, BitVec.le_def, e65]
    omega
  · apply h
    show c.val ≤ (90 : UInt32)
    rw [UInt32.le_def, BitVec.le_def, e90]
    omega

/-- Putting the slash back after `path[0:-1]` recovers a slash-terminated
path. -/
theorem pyDropLast_append_slash (path : String) (h : pyEndsWith path "/" = true) :
    pyDropLast path ++ "/" = path := by
  unfold pyEndsWith at h
  rw [show ("/" : String).data = ['/'] from rfl] at h
  rw [List.isSuffixOf_iff_suffix] at h
  obtain ⟨t, ht⟩ := h
  apply String.ext
  show (pyDropLast path).data ++ ("/" : String).data = path.data
  rw [show ("/" : String).data = ['/'] from rfl]
  unfold pyDropLast
  show path.data.dropLast ++ ['/'] = path.data
  rw [← ht, List.dropLast_concat]

/-! ### Claims -/

/-- Claim C1: for every non-empty profile URL whose transform (HTML-escape,
strip one leading `http://`) matches the allow-list pattern,
`profile_url_to_cse_patterns` returns `[u, u ++ "*"]` when the transformed
URL `u` ends in `/`, `[u]` when it does not but contains `?`, and
`[u, u ++ "/*"]` otherwise; for an empty URL or one failing the pattern it
returns `[]`. -/
theorem C1_cse_patterns (profile_url : String) :
    (profile_url ≠ "" → VALID_CSE_RE_match (cseTransform profile_url) = true →
      profile_url_to_cse_patterns profile_url =
        (if pyEndsWith (cseTransform profile_url) "/" then
          [cseTransform profile_url, cseTransform profile_url ++ "*"]
         else if pyContainsChar (cseTransform profile_url) '?' then
          [cseTransform profile_url]
         else
          [cseTransform profile_url, cseTransform profile_url ++ "/*"])) ∧
    ((profile_url = "" ∨ VALID_CSE_RE_match (cseTransform profile_url) = false) →
      profile_url_to_cse_patterns profile_url = []) := by
  constructor
  · intro h1 h2
    simp [profile_url_to_cse_patterns, h1, h2]
  · rintro (h | h) <;> simp [profile_url_to_cse_patterns, h]

/-- Witness for C1 at the concrete inputs `"http://example.com/"` and
`""`. -/
theorem C1_cse_patterns_witness :
    profile_url_to_cse_patterns "http://example.com/" =
      ["example.com/", "example.com/*"] ∧
    profile_url_to_cse_patterns "" = [] :=
  ⟨((C1_cse_patterns "http://example.com/").1 (by decide) (by decide)).trans
      (by decide),
   (C1_cse_patterns "").2 (Or.inl rfl)⟩

/-- Claim C2 (amended): for a non-empty nickname, `get_friendfeed_profile`
interprets the upstream status: 404 raises a user-facing not-found error, 401
a user-facing private error, any other non-200 a non-user-facing error, a 200
with empty or unparseable body a non-user-facing error, and a 200 whose body
parses to a truthy value returns that parsed profile (a falsy parse result
such as an empty mapping instead raises a server error, which is what the
counterexample exhibits against the unamended claim). -/
theorem C2_profile_status (nickname : String) (fetch : String → UrlResult)
    (parse : String → Option PyJson) (hn : nickname ≠ "") :
    ((fetch (friendfeed_profile_url nickname)).status_code = 404 →
      get_friendfeed_profile nickname fetch parse =
        (.error (.userError ("User " ++ nickname ++ " not found")), 1)) ∧
    ((fetch (friendfeed_profile_url nickname)).status_code ≠ 404 →
     (fetch (friendfeed_profile_url nickname)).status_code = 401 →
      get_friendfeed_profile nickname fetch parse =
        (.error (.userError ("User " ++ nickname ++ " is private")), 1)) ∧
    ((fetch (friendfeed_profile_url nickname)).status_code ≠ 404 →
     (fetch (friendfeed_profile_url nickname)).status_code ≠ 401 →
     (fetch (friendfeed_profile_url nickname)).status_code ≠ 200 →
      ∃ e, get_friendfeed_profile nickname fetch parse = (.error e, 1) ∧
        e.isUserFacing = false) ∧
    ((fetch (friendfeed_profile_url nickname)).status_code = 200 →
     (fetch (friendfeed_profile_url nickname)).content = "" →
      ∃ e, get_friendfeed_profile nickname fetch parse = (.error e, 1) ∧
        e.isUserFacing = false) ∧
    ((fetch (friendfeed_profile_url nickname)).status_code = 200 →
     (fetch (friendfeed_profile_url nickname)).content ≠ "" →
     parse (fetch (friendfeed_profile_url nickname)).content = none →
      ∃ e, get_friendfeed_profile nickname fetch parse = (.error e, 1) ∧
        e.isUserFacing = false) ∧
    ((fetch (friendfeed_profile_url nickname)).status_code = 200 →
     (fetch (friendfeed_profile_url nickname)).content ≠ "" →
     ∀ j, parse (fetch (friendfeed_profile_url nickname)).content = some j →
       pyTruthy j = true →
       get_friendfeed_profile nickname fetch parse = (.ok j, 1)) := by
  refine ⟨?_, ?_, ?_, ?_, ?_, ?_⟩
  · intro h404
    simp [get_friendfeed_profile, hn, h404]
  · intro h404 h401
    simp [get_friendfeed_profile, hn, h404, h401]
  · intro h404 h401 h200
    refine ⟨.typeError, ?_, rfl⟩
    simp [get_friendfeed_profile, hn, h404, h401, h200]
  · intro h200 hbody
    refine ⟨.serverError ("could not load friendfeed user " ++ nickname), ?_, rfl⟩
    simp [get_friendfeed_profile, hn, h200, hbody]
  · intro h200 hbody hparse
    refine ⟨.valueError, ?_, rfl⟩
    simp [get_friendfeed_profile, hn, h200, hbody, hparse]
  · intro h200 hbody j hparse htr
    simp [get_friendfeed_profile, hn, h200, hbody, hparse, htr]

/-- Counterexample to claim C2 as stated: a 200 response whose body is the
non-empty, parseable JSON text of two braces (the empty object) does not make
`get_friendfeed_profile` return the parsed mapping; the parsed mapping is
falsy, so the function raises `ServerError` instead. -/
theorem C2_profile_status_counterexample :
    get_friendfeed_profile "bob" (fun _ => ⟨200, "\x7b\x7d"⟩)
        (fun s => if s = "\x7b\x7d" then some (PyJson.obj []) else none) =
      (.error (.serverError "could not parse friendfeed user bob"), 1) ∧
    get_friendfeed_profile "bob" (fun _ => ⟨200, "\x7b\x7d"⟩)
        (fun s => if s = "\x7b\x7d" then some (PyJson.obj []) else none) ≠
      (.ok (PyJson.obj []), 1) :=
  ⟨rfl, fun h => Except.noConfusion (congrArg Prod.fst h)⟩

/-- Witness for C2 at concrete inputs: an upstream 404 for `bob`, and a 200
whose body parses to a truthy profile. -/
theorem C2_profile_status_witness :
    get_friendfeed_profile "bob" (fun _ => ⟨404, ""⟩) (fun _ => none) =
      (.error (.userError ("User " ++ "bob" ++ " not found")), 1) ∧
    get_friendfeed_profile "bob" (fun _ => ⟨200, "x"⟩)
        (fun s => if s = "x" then some (.obj [("name", .str "Bob")]) else none) =
      (.ok (.obj [("name", .str "Bob")]), 1) :=
  ⟨(C2_profile_status "bob" (fun _ => ⟨404, ""⟩) (fun _ => none)
      (by decide)).1 rfl,
   (C2_profile_status "bob" (fun _ => ⟨200, "x"⟩)
      (fun s => if s = "x" then some (.obj [("name", .str "Bob")]) else none)
      (by decide)).2.2.2.2.2 rfl (by decide) (.obj [("name", .str "Bob")])
      rfl rfl⟩

/-- Claim C3: with a non-zero TTL, after a first call on a cache miss
computes a truthy value (and therefore stores it under the global key), an
immediately following call with the same arguments returns that cached value
without invoking the wrapped operation again. -/
theorem C3_cache_roundtrip {β α : Type} (expiration : Nat) (truthy : α → Bool)
    (module fname : String) (keygen : β → String) (f : β → α) (args : β)
    (cache : List (String × α))
    (hexp : expiration ≠ 0)
    (htr : truthy (f args) = true)
    (hmiss : cache.lookup (module ++ ":" ++ fname ++ ":" ++ keygen args) = none) :
    (cacheable_call expiration truthy module fname keygen f args cache).result
      = f args ∧
    (cacheable_call expiration truthy module fname keygen f args cache).fcalls
      = 1 ∧
    (cacheable_call expiration truthy module fname keygen f args cache).cache.lookup
        (module ++ ":" ++ fname ++ ":" ++ keygen args) = some (f args) ∧
    (cacheable_call expiration truthy module fname keygen f args
        (cacheable_call expiration truthy module fname keygen f args cache).cache).result
      = f args ∧
    (cacheable_call expiration truthy module fname keygen f args
        (cacheable_call expiration truthy module fname keygen f args cache).cache).fcalls
      = 0 := by
  simp [cacheable_call, hexp, hmiss, htr, memcache_add, List.lookup]

/-- Witness for C3: a counter-style wrapped operation on `Nat` with TTL 3600
and an initially empty cache. -/
theorem C3_cache_roundtrip_witness :
    ((cacheable_call 3600 (fun (n : Nat) => n != 0) "ego" "get_url"
        (fun (_ : Nat) => "k") (fun n => n + 1) 0 []).result = 1 ∧
     (cacheable_call 3600 (fun (n : Nat) => n != 0) "ego" "get_url"
        (fun (_ : Nat) => "k") (fun n => n + 1) 0 []).fcalls = 1 ∧
     (cacheable_call 3600 (fun (n : Nat) => n != 0) "ego" "get_url"
        (fun (_ : Nat) => "k") (fun n => n + 1) 0 []).cache.lookup
          ("ego" ++ ":" ++ "get_url" ++ ":" ++ "k") = some 1 ∧
     (cacheable_call 3600 (fun (n : Nat) => n != 0) "ego" "get_url"
        (fun (_ : Nat) => "k") (fun n => n + 1) 0
        (cacheable_call 3600 (fun (n : Nat) => n != 0) "ego" "get_url"
          (fun (_ : Nat) => "k") (fun n => n + 1) 0 []).cache).result = 1 ∧
     (cacheable_call 3600 (fun (n : Nat) => n != 0) "ego" "get_url"
        (fun (_ : Nat) => "k") (fun n => n + 1) 0
        (cacheable_call 3600 (fun (n : Nat) => n != 0) "ego" "get_url"
          (fun (_ : Nat) => "k") (fun n => n + 1) 0 []).cache).fcalls = 0) :=
  C3_cache_roundtrip 3600 (fun n => n != 0) "ego" "get_url" (fun _ => "k")
    (fun n => n + 1) 0 [] (by decide) (by decide) (by decide)

/-- Claim C6: with a zero (or unset) TTL the decorated operation returns
exactly the wrapped operation's value, makes no `memcache.get` and no
`memcache.add` call, and leaves the cache unchanged. -/
theorem C6_ttl_zero {β α : Type} (truthy : α → Bool) (module fname : String)
    (keygen : β → String) (f : β → α) (args : β) (cache : List (String × α)) :
    cacheable_call 0 truthy module fname keygen f args cache =
      ⟨f args, cache, 1, 0, 0⟩ := by
  simp [cacheable_call]

/-- Claim C4: `get_friendfeed_name` returns the profile's `name` value
whenever that key is present (regardless of any `nickname` entry), else the
profile's `nickname` value, else the originally requested nickname. -/
theorem C4_display_name (profile : List (String × PyJson)) (nickname : String) :
    (∀ v, profile.lookup "name" = some v →
      get_friendfeed_name profile nickname = v) ∧
    (profile.lookup "name" = none →
     ∀ v, profile.lookup "nickname" = some v →
      get_friendfeed_name profile nickname = v) ∧
    (profile.lookup "name" = none → profile.lookup "nickname" = none →
      get_friendfeed_name profile nickname = .str nickname) := by
  refine ⟨?_, ?_, ?_⟩ <;> intros <;> simp [get_friendfeed_name, *]

/-- Witness for C4: all three fallback stages at concrete profiles. -/
theorem C4_display_name_witness :
    get_friendfeed_name [("name", PyJson.str "Alice"), ("nickname", PyJson.str "al")]
      "req" = PyJson.str "Alice" ∧
    get_friendfeed_name [("nickname", PyJson.str "al")] "req" = PyJson.str "al" ∧
    get_friendfeed_name [] "req" = PyJson.str "req" :=
  ⟨(C4_display_name [("name", PyJson.str "Alice"), ("nickname", PyJson.str "al")]
      "req").1 (PyJson.str "Alice") rfl,
   (C4_display_name [("nickname", PyJson.str "al")] "req").2.1 rfl
      (PyJson.str "al") rfl,
   (C4_display_name [] "req").2.2 rfl rfl⟩

/-- Claim C5: for the empty nickname, `get_friendfeed_profile` raises a
user-facing error and makes zero calls to the upstream fetcher, whatever the
fetcher and parser would do. -/
theorem C5_empty_nickname (fetch : String → UrlResult)
    (parse : String → Option PyJson) :
    get_friendfeed_profile "" fetch parse =
      (.error (.userError "nickname required"), 0) ∧
    FFError.isUserFacing (.userError "nickname required") = true :=
  ⟨rfl, rfl⟩

/-- Claim C7: when the request path is not all-lowercase in the sense of
`islower()`, `UserView` returns a 301 `HTTPMovedPermanently` to the
lowercased path, performs no profile fetch (zero `get_url` calls) and renders
no template. -/
theorem C7_case_redirect (request_path nickname : String)
    (fetch : String → UrlResult) (parse : String → Option PyJson)
    (h : pyIsLower request_path = false) :
    UserView request_path nickname fetch parse =
      (.ok (.movedPermanently (pyLower request_path)), 0) ∧
    (ViewResponse.movedPermanently (pyLower request_path)).status = 301 := by
  refine ⟨?_, rfl⟩
  simp [UserView, h]

/-- Witness for C7 at the mixed-case path `/friendfeed/JohnDoe/`. -/
theorem C7_case_redirect_witness :
    (UserView "/friendfeed/JohnDoe/" "JohnDoe" (fun _ => ⟨200, "x"⟩)
        (fun _ => none) =
      (.ok (.movedPermanently (pyLower "/friendfeed/JohnDoe/")), 0)) ∧
    pyLower "/friendfeed/JohnDoe/" = "/friendfeed/johndoe/" :=
  ⟨(C7_case_redirect "/friendfeed/JohnDoe/" "JohnDoe" (fun _ => ⟨200, "x"⟩)
      (fun _ => none) (by decide)).1, by decide⟩

/-- Claim C8: registering a GET route whose pattern ends in `/` also
registers `_redirect_with_slash` at the pattern without the trailing slash,
and that handler answers a request to the slash-less path with a 301 whose
`Location` is the slash-ful form. -/
theorem C8_slashless_redirect (urls : List Route) (path f : String)
    (h : pyEndsWith path "/" = true) :
    (⟨pyDropLast path, .GET, .redirectWithSlash⟩ : Route) ∈
      add_get_handler urls path f ∧
    redirect_with_slash (pyDropLast path) = (301, path) := by
  constructor
  · simp [add_get_handler, h]
  · unfold redirect_with_slash
    rw [pyDropLast_append_slash path h]

/-- Witness for C8 at the user route pattern. -/
theorem C8_slashless_redirect_witness :
    ((⟨pyDropLast "/friendfeed/\x7bnickname:word\x7d/", .GET,
        .redirectWithSlash⟩ : Route) ∈
      add_get_handler [] "/friendfeed/\x7bnickname:word\x7d/" "UserView") ∧
    redirect_with_slash (pyDropLast "/friendfeed/\x7bnickname:word\x7d/") =
      (301, "/friendfeed/\x7bnickname:word\x7d/") :=
  C8_slashless_redirect [] "/friendfeed/\x7bnickname:word\x7d/" "UserView"
    (by decide)

/-- Counterexample to claim C9 as stated: its example path
`/friendfeed/123/` does contain cased characters (the letters of
`friendfeed`), `islower()` is true for it, and `UserView` renders the user
page there instead of returning a self-redirect. -/
theorem C9_caseless_counterexample :
    pyIsLower "/friendfeed/123/" = true ∧
    UserView "/friendfeed/123/" "123" (fun _ => ⟨200, "P"⟩)
        (fun s => if s = "P" then some (.obj [("name", .str "N")]) else none) =
      (.ok (.rendered "user.tmpl"
        [("nickname", .str "123"), ("name", .str "N")]), 1) ∧
    UserView "/friendfeed/123/" "123" (fun _ => ⟨200, "P"⟩)
        (fun s => if s = "P" then some (.obj [("name", .str "N")]) else none) ≠
      (.ok (.movedPermanently "/friendfeed/123/"), 0) :=
  ⟨by decide, rfl, fun h => absurd (congrArg Prod.snd h) (by decide)⟩

/-- Claim C9 (amended): for a request path containing no cased characters at
all, `islower()` is false and `UserView` 301-redirects to the lowercased
path, which is the identical unchanged path; per-user route paths, however,
always contain the lower-case letters of `/friendfeed/`, so an all-digit
nickname does not produce such a path. -/
theorem C9_caseless_self_redirect (request_path nickname : String)
    (fetch : String → UrlResult) (parse : String → Option PyJson)
    (h : ∀ c ∈ request_path.data, c.isUpper = false ∧ c.isLower = false) :
    pyIsLower request_path = false ∧
    UserView request_path nickname fetch parse =
      (.ok (.movedPermanently request_path), 0) := by
  have hlow : pyIsLower request_path = false := by
    unfold pyIsLower
    simp only [Bool.and_eq_false_iff]
    right
    rw [List.any_eq_false]
    intro c hc
    simp [(h c hc).2]
  have hfix : pyLower request_path = request_path := by
    unfold pyLower
    apply String.ext
    show request_path.data.map Char.toLower = request_path.data
    conv_rhs => rw [← List.map_id request_path.data]
    apply List.map_congr_left
    intro c hc
    exact toLower_of_not_upper c (h c hc).1
  refine ⟨hlow, ?_⟩
  simp [UserView, hlow, hfix]

/-- Witness for the amended C9 at the truly caseless path `/123/`. -/
theorem C9_caseless_self_redirect_witness :
    pyIsLower "/123/" = false ∧
    UserView "/123/" "123" (fun _ => ⟨200, "x"⟩) (fun _ => none) =
      (.ok (.movedPermanently "/123/"), 0) :=
  C9_caseless_self_redirect "/123/" "123" (fun _ => ⟨200, "x"⟩) (fun _ => none)
    (by decide)

/-- Claim C10: on a non-200 annotations fetch `get_annotations` returns
`None` (not the empty string, whose assignment in the source is dead); on a
200 it returns the response body. -/
theorem C10_annotations_none (nickname : String) (fetch : String → UrlResult) :
    ((fetch (ANNOTATIONS_URL nickname)).status_code ≠ 200 →
      get_annotations nickname fetch = none ∧
      get_annotations nickname fetch ≠ some "") ∧
    ((fetch (ANNOTATIONS_URL nickname)).status_code = 200 →
      get_annotations nickname fetch =
        some (fetch (ANNOTATIONS_URL nickname)).content) := by
  constructor
  · intro h
    refine ⟨?_, ?_⟩ <;> simp [get_annotations, h]
  · intro h
    simp [get_annotations, h]

/-- Witness for C10 at an upstream 500 and an upstream 200. -/
theorem C10_annotations_none_witness :
    (get_annotations "bob" (fun _ => ⟨500, "ignored"⟩) = none) ∧
    (get_annotations "bob" (fun _ => ⟨200, "body"⟩) = some "body") :=
  ⟨((C10_annotations_none "bob" (fun _ => ⟨500, "ignored"⟩)).1 (by decide)).1,
   (C10_annotations_none "bob" (fun _ => ⟨200, "body"⟩)).2 rfl⟩

end Ego
